import Mathlib

/-!
Shallow embedding of the Minecraft-style server in
`src/RustServer/src/main.rs`, together with proofs about the claims of
the specification.

Modelling conventions:

* Bytes are `Nat` values; every byte produced by the code is `< 256`.
  Byte streams and packet buffers are `List Nat`.  A `std::io::Cursor`
  over a buffer is modelled by passing both the whole buffer and the
  not-yet-consumed suffix.
* Machine integers are modelled by `Nat`/`Int` with explicit wrapping.
  An `i32` is represented by its value as an `Int`; its 32-bit
  two-complement bit pattern is a `Nat` below `2 ^ 32`
  (`i32ofPat` converts a pattern to the signed value).  Rust signed
  right shift `>> 7` on `i32` is arithmetic, which equals floor
  division by `128`; on `Int` with a positive divisor, `/` (`Int.ediv`)
  is floor division, so `value >> 7` is embedded as `value / 128`.
  Shift-left on `i32` is embedded with the release-mode semantics of
  Rust (`wrapping_shl`: the shift amount is masked by `% 32` and the
  result truncated to 32 bits).
* `f64`/`f32` fields are never used arithmetically by the program: the
  handlers only move raw big-endian bytes into `position` fields.  So
  floating point values are represented by their bit patterns as `Nat`
  (for instance `64.0 : f64` is `0x4050000000000000`).
* Fallible reads return `Except PErr` / `Option`.  A Rust `unwrap` on
  an error value (a panic of the connection thread) is modelled by the
  `none` / `.panicked` outcome.
* The only loop of the program whose termination is not structural is
  `write_varint_to_vec`; it is embedded with an explicit fuel counter
  (`write_varint_to_vec_fuel`), where `none` means the loop did not
  finish within the given number of iterations.  Five iterations are
  proved sufficient for all nonnegative 32-bit inputs; for negative
  inputs the loop is proved to run forever (no fuel suffices).
* The per-connection control flow of `handle_client` is split into
  `handle_client_setup` (handshake, status/login branch, roster insert,
  the two outbound packets; lines 97-150) and `play_loop`
  (lines 152-177).  Socket writes are assumed to succeed; random
  values (`Uuid::new_v4`) are passed in as parameters.
-/

deriving instance DecidableEq for Except

namespace RustServer

/-- Signed value of a 32-bit two-complement bit pattern. -/
def i32ofPat (p : Nat) : Int :=
  if p < 2 ^ 31 then (p : Int) else (p : Int) - 2 ^ 32

/-- Rust cast `n as i32` for a nonnegative quantity `n` (used for
`Vec::len() as i32`). -/
def as_i32 (n : Nat) : Int := i32ofPat (n % 2 ^ 32)

/-- Rust cast `v as usize` of an `i32` value (64-bit target):
sign-extend, then reinterpret as unsigned. -/
def i32_as_usize (v : Int) : Nat := (v % 2 ^ 64).toNat

/-- Error kinds raised by the codec and the protocol layer.  The source
uses `std::io::Error` and ad-hoc `String` messages; only the kind
matters for the spec claims. -/
inductive PErr where
  | eof
  | varIntTooBig
  | invalidUtf8
  | badHandshakeId (id : Int)
  | badLoginId (id : Int)
  deriving DecidableEq, Repr

/-- Loop body of `read_varint_from_cursor` (main.rs lines 398-413) and
`read_varint` (lines 379-396): both run the same algorithm, reading one
byte at a time.  `num_read` counts bytes already consumed, `result` is
the accumulated `i32` bit pattern.  The source ORs the shifted group
into `result` before the `num_read > 5` overflow check, exactly as
here. -/
def read_varint_loop : List Nat → Nat → Nat → Except PErr (Nat × List Nat)
  | [], _, _ => .error .eof
  | b :: rest, num_read, result =>
    if 5 < num_read + 1 then .error .varIntTooBig
    else if b &&& 128 = 0 then
      .ok (result ||| (((b &&& 127) <<< (7 * num_read % 32)) % 2 ^ 32), rest)
    else read_varint_loop rest (num_read + 1)
      (result ||| (((b &&& 127) <<< (7 * num_read % 32)) % 2 ^ 32))

/-- `read_varint_from_cursor` (main.rs lines 398-413): decode a VarInt
from the front of a byte sequence, returning the decoded `i32` and the
remaining bytes.  `read_varint` on a live socket (lines 379-396) runs
the identical algorithm and is embedded by the same function. -/
def read_varint_from_cursor (stream : List Nat) : Except PErr (Int × List Nat) :=
  match read_varint_loop stream 0 0 with
  | .error e => .error e
  | .ok (p, rest) => .ok (i32ofPat p, rest)

/-- Loop body of `write_varint_to_vec` (main.rs lines 430-444), with an
explicit fuel counter bounding the number of iterations; `none` means
the loop has not terminated within `fuel` iterations.  Each iteration
emits the low seven bits of `value` (`value & 0x7f` is `value % 128` on
the two-complement pattern), then performs the arithmetic shift
`value >>= 7` (floor division by 128), sets the continuation bit if the
shifted value is nonzero, and stops once it is zero. -/
def write_varint_to_vec_fuel : Nat → Int → Option (List Nat)
  | 0, _ => none
  | fuel + 1, value =>
    if value / 128 = 0 then some [(value % 128).toNat]
    else
      match write_varint_to_vec_fuel fuel (value / 128) with
      | none => none
      | some rest => some (((value % 128).toNat ||| 128) :: rest)

/-- `write_varint_to_vec` (main.rs lines 430-444).  Five iterations are
sufficient for every value the program ever encodes (packet ids,
lengths and small constants, all in `[0, 2^31)`); see
`write_varint_fuel_sufficient`. -/
def write_varint_to_vec (value : Int) : List Nat :=
  (write_varint_to_vec_fuel 5 value).getD []

/-- Big-endian value of a byte list (`byteorder::BigEndian`). -/
def beval (l : List Nat) : Nat := l.foldl (fun a b => a * 256 + b % 256) 0

/-- Read `n` bytes from the front of a cursor as one big-endian
quantity (models `read_u16`, `read_f64`, `read_f32`: the `f64`/`f32`
results are kept as bit patterns).  Fails when fewer than `n` bytes
remain, as `byteorder` read calls do. -/
def read_be_bytes (n : Nat) (l : List Nat) : Option (Nat × List Nat) :=
  if n ≤ l.length then some (beval (l.take n), l.drop n) else none

/-- Is `b` a UTF-8 continuation byte (`0x80..0xBF`)? -/
def utf8_cont (b : Nat) : Bool := 128 ≤ b && b ≤ 191

/-- UTF-8 validity of a byte sequence, as checked by
`String::from_utf8` (RFC 3629: no overlong forms, no surrogates, no
code points above `0x10FFFF`). -/
def utf8_valid : List Nat → Bool
  | [] => true
  | b :: rest =>
    if b < 128 then utf8_valid rest
    else if b < 194 then false
    else if b < 224 then
      match rest with
      | b1 :: r => utf8_cont b1 && utf8_valid r
      | _ => false
    else if b = 224 then
      match rest with
      | b1 :: b2 :: r => (160 ≤ b1 && b1 ≤ 191) && utf8_cont b2 && utf8_valid r
      | _ => false
    else if b = 237 then
      match rest with
      | b1 :: b2 :: r => (128 ≤ b1 && b1 ≤ 159) && utf8_cont b2 && utf8_valid r
      | _ => false
    else if b < 240 then
      match rest with
      | b1 :: b2 :: r => utf8_cont b1 && utf8_cont b2 && utf8_valid r
      | _ => false
    else if b = 240 then
      match rest with
      | b1 :: b2 :: b3 :: r =>
        (144 ≤ b1 && b1 ≤ 191) && utf8_cont b2 && utf8_cont b3 && utf8_valid r
      | _ => false
    else if b < 244 then
      match rest with
      | b1 :: b2 :: b3 :: r =>
        utf8_cont b1 && utf8_cont b2 && utf8_cont b3 && utf8_valid r
      | _ => false
    else if b = 244 then
      match rest with
      | b1 :: b2 :: b3 :: r =>
        (128 ≤ b1 && b1 ≤ 143) && utf8_cont b2 && utf8_cont b3 && utf8_valid r
      | _ => false
    else false

/-- `read_string_from_cursor` (main.rs lines 453-458): VarInt length,
then that many raw bytes, validated as UTF-8.  The decoded string is
kept as its byte sequence. -/
def read_string_from_cursor (c : List Nat) : Except PErr (List Nat × List Nat) :=
  match read_varint_from_cursor c with
  | .error e => .error e
  | .ok (len, r) =>
    if i32_as_usize len ≤ r.length then
      if utf8_valid (r.take (i32_as_usize len)) then
        .ok (r.take (i32_as_usize len), r.drop (i32_as_usize len))
      else .error .invalidUtf8
    else .error .eof

/-- Packet framing shared by `handle_handshake` (lines 226-231),
`handle_login` (lines 266-271) and the play loop (lines 153-165): a
VarInt length prefix, then exactly that many bytes
(`vec![0; length as usize]` + `read_exact`). -/
def read_frame (stream : List Nat) : Except PErr (List Nat × List Nat) :=
  match read_varint_from_cursor stream with
  | .error e => .error e
  | .ok (len, rest) =>
    if i32_as_usize len ≤ rest.length then
      .ok (rest.take (i32_as_usize len), rest.drop (i32_as_usize len))
    else .error .eof

/-- `GameMode` (main.rs lines 25-31). -/
inductive GameMode where
  | Survival
  | Creative
  | Adventure
  | Spectator
  deriving DecidableEq, Repr

/-- `Player` (main.rs lines 15-23).  `uuid` is the 128-bit identifier
as a `Nat`; `username` is the UTF-8 byte sequence of the name;
`position` holds the three `f64` bit patterns; `health` holds the
`f32` bit pattern. -/
structure Player where
  uuid : Nat
  username : List Nat
  position : Nat × Nat × Nat
  health : Nat
  game_mode : GameMode
  is_operator : Bool
  deriving DecidableEq, Repr

/-- Bit pattern of `64.0 : f64` (sign 0, exponent 1029, mantissa 0). -/
def f64_pat_64 : Nat := 0x4050000000000000

/-- Bit pattern of `20.0 : f32`. -/
def f32_pat_20 : Nat := 0x41A00000

/-- The player record created at login (main.rs lines 129-136): spawn
position `(0.0, 64.0, 0.0)`, full health, Survival, not operator. -/
def mkPlayer (u : Nat) (uname : List Nat) : Player :=
  { uuid := u
    username := uname
    position := (0, f64_pat_64, 0)
    health := f32_pat_20
    game_mode := .Survival
    is_operator := false }

/-- Roster insertion: `players.lock().unwrap().push(player)`
(main.rs line 137). -/
def roster_insert (players : List Player) (p : Player) : List Player :=
  players ++ [p]

/-- Roster removal on disconnect:
`players.retain(|p| p.username != username)` (main.rs lines 159, 173). -/
def roster_remove_by_username (players : List Player) (name : List Nat) : List Player :=
  players.filter (fun q => q.username != name)

/-- Roster lookup by identity:
`players.iter().find(|p| p.uuid == uuid)` (main.rs lines 203, 219). -/
def roster_find_by_uuid (players : List Player) (u : Nat) : Option Player :=
  players.find? (fun q => q.uuid == u)

/-- Mutate-first-match:
`if let Some(p) = players.iter_mut().find(|p| p.uuid == u) { p.position = xyz }`
(main.rs lines 203-205 and 219-221). -/
def updateFirstPos : List Player → Nat → Nat × Nat × Nat → List Player
  | [], _, _ => []
  | q :: qs, u, xyz =>
    if q.uuid = u then { q with position := xyz } :: qs
    else q :: updateFirstPos qs u xyz

/-- `handle_player_position` (main.rs lines 195-207).  `full` is the
whole framed packet buffer (`cursor.get_ref()`), `r` the bytes after
the packet id (the cursor position).  The guard compares 24 against
the WHOLE buffer length, including the packet-id bytes.  Each
`read_f64` result is `unwrap`-ped: a failed read is a panic, modelled
by `none`. -/
def handle_player_position (players : List Player) (player : Player)
    (full r : List Nat) : Option (List Player) :=
  if 24 ≤ full.length then
    match read_be_bytes 8 r with
    | none => none
    | some (x, r1) =>
      match read_be_bytes 8 r1 with
      | none => none
      | some (y, r2) =>
        match read_be_bytes 8 r2 with
        | none => none
        | some (z, _) => some (updateFirstPos players player.uuid (x, y, z))
  else some players

/-- `handle_player_position_and_rotation` (main.rs lines 209-223): as
above with a 32-byte guard; yaw and pitch (two big-endian `f32`) are
read and discarded. -/
def handle_player_position_and_rotation (players : List Player) (player : Player)
    (full r : List Nat) : Option (List Player) :=
  if 32 ≤ full.length then
    match read_be_bytes 8 r with
    | none => none
    | some (x, r1) =>
      match read_be_bytes 8 r1 with
      | none => none
      | some (y, r2) =>
        match read_be_bytes 8 r2 with
        | none => none
        | some (z, r3) =>
          match read_be_bytes 4 r3 with
          | none => none
          | some (_, r4) =>
            match read_be_bytes 4 r4 with
            | none => none
            | some (_, _) => some (updateFirstPos players player.uuid (x, y, z))
  else some players

/-- `handle_packet` (main.rs lines 180-193): decode the packet id from
the framed buffer; on a decode error `return` (the play loop in
`handle_client` continues with the next packet); dispatch `0x12` and
`0x13`; log-and-ignore unknown ids.  `none` propagates a handler
panic. -/
def handle_packet (players : List Player) (player : Player)
    (buffer : List Nat) : Option (List Player) :=
  match read_varint_from_cursor buffer with
  | .error _ => some players
  | .ok (packet_id, r) =>
    if packet_id = 0x12 then handle_player_position players player buffer r
    else if packet_id = 0x13 then handle_player_position_and_rotation players player buffer r
    else some players

/-- Outcome of the play loop of `handle_client` (main.rs lines
152-177). -/
inductive LoopOut where
  | ret : List Player → LoopOut
  | panicked : LoopOut
  | fuelOut : LoopOut
  deriving DecidableEq, Repr

/-- The play loop of `handle_client` (main.rs lines 152-177), with a
fuel counter for termination (each iteration consumes at least the one
length-prefix byte, so `stream.length + 1` units of fuel always
suffice; see `play_loop_no_fuelOut`).  On a length-prefix read error
or a short body (`read_exact` failing at end of stream) the player is
removed by username and the loop returns. -/
def play_loop_go (player : Player) : Nat → List Player → List Nat → LoopOut
  | 0, _, _ => .fuelOut
  | fuel + 1, players, stream =>
    match read_varint_from_cursor stream with
    | .error _ => .ret (players.filter (fun q => q.username != player.username))
    | .ok (len, rest) =>
      if i32_as_usize len ≤ rest.length then
        match handle_packet players player (rest.take (i32_as_usize len)) with
        | none => .panicked
        | some players2 =>
          play_loop_go player fuel players2 (rest.drop (i32_as_usize len))
      else .ret (players.filter (fun q => q.username != player.username))

/-- The play loop, started with enough fuel for its stream. -/
def play_loop (players : List Player) (player : Player) (stream : List Nat) : LoopOut :=
  play_loop_go player (stream.length + 1) players stream

/-- `handle_handshake` (main.rs lines 225-259): one frame holding
packet id `0x00`, VarInt protocol version, string address, big-endian
`u16` port, VarInt next state.  Returns the next state and the
remaining stream. -/
def handle_handshake (stream : List Nat) : Except PErr (Int × List Nat) :=
  match read_frame stream with
  | .error e => .error e
  | .ok (frame, rest) =>
    match read_varint_from_cursor frame with
    | .error e => .error e
    | .ok (packet_id, c1) =>
      if packet_id ≠ 0 then .error (.badHandshakeId packet_id)
      else
        match read_varint_from_cursor c1 with
        | .error e => .error e
        | .ok (_, c2) =>
          match read_string_from_cursor c2 with
          | .error e => .error e
          | .ok (_, c3) =>
            match read_be_bytes 2 c3 with
            | none => .error .eof
            | some (_, c4) =>
              match read_varint_from_cursor c4 with
              | .error e => .error e
              | .ok (next_state, _) => .ok (next_state, rest)

/-- `handle_login` (main.rs lines 265-289): one frame holding packet id
`0x00` and the username string; any other id is a protocol error.
Returns the username bytes and the remaining stream. -/
def handle_login (stream : List Nat) : Except PErr (List Nat × List Nat) :=
  match read_frame stream with
  | .error e => .error e
  | .ok (frame, rest) =>
    match read_varint_from_cursor frame with
    | .error e => .error e
    | .ok (packet_id, c1) =>
      if packet_id ≠ 0 then .error (.badLoginId packet_id)
      else
        match read_string_from_cursor c1 with
        | .error e => .error e
        | .ok (uname, _) => .ok (uname, rest)

/-- `write_string_to_vec` (main.rs lines 460-465). -/
def write_string_to_vec (s : List Nat) : List Nat :=
  write_varint_to_vec (as_i32 s.length) ++ s

/-- Lowercase hex digit of a nibble, as ASCII. -/
def hexDigit (n : Nat) : Nat := if n < 10 then 48 + n else 87 + n

/-- Fixed-width big-endian hex rendering of `v`, `k` nibbles. -/
def hexDigits : Nat → Nat → List Nat
  | _, 0 => []
  | v, k + 1 => hexDigits (v / 16) k ++ [hexDigit (v % 16)]

/-- Hyphenated textual form of a 128-bit identifier, as produced by
`Uuid::to_string()` (8-4-4-4-12 lowercase hex, 36 bytes). -/
def uuid_to_string (u : Nat) : List Nat :=
  (hexDigits u 32).take 8 ++ [45] ++ ((hexDigits u 32).drop 8).take 4 ++ [45] ++
    ((hexDigits u 32).drop 12).take 4 ++ [45] ++ ((hexDigits u 32).drop 16).take 4 ++
    [45] ++ (hexDigits u 32).drop 20

/-- Payload of the login-success packet (main.rs lines 292-299):
packet id `0x02`, the identity as text, the username. -/
def login_success_payload (p : Player) : List Nat :=
  write_varint_to_vec 0x02 ++
  write_string_to_vec (uuid_to_string p.uuid) ++
  write_string_to_vec p.username

/-- `send_login_success` (main.rs lines 291-308): the payload behind
its VarInt length prefix, written in one piece. -/
def send_login_success (p : Player) : List Nat :=
  write_varint_to_vec (as_i32 (login_success_payload p).length) ++
    login_success_payload p

/-- Byte sequence of the identifier string `minecraft:overworld`. -/
def overworld : List Nat :=
  [109, 105, 110, 101, 99, 114, 97, 102, 116, 58,
   111, 118, 101, 114, 119, 111, 114, 108, 100]

/-- The game-mode byte of the join packet (main.rs lines 321-326). -/
def game_mode_byte : GameMode → Nat
  | .Survival => 0
  | .Creative => 1
  | .Adventure => 2
  | .Spectator => 3

/-- `send_join_game` (main.rs lines 310-377): packet id `0x26`, entity
id `1 : i32`, hardcore flag, game mode, previous game mode `0xFF`,
world count 1, three `minecraft:overworld` identifiers around an empty
NBT tag, hashed seed 0, three VarInt 10 values, four boolean bytes;
length-prefixed.  The `World` argument of the source function is not
used to build any byte, so it is dropped here. -/
def join_game_payload (p : Player) : List Nat :=
  write_varint_to_vec 0x26 ++
  [0, 0, 0, 1] ++
  [0] ++
  [game_mode_byte p.game_mode] ++
  [255] ++
  write_varint_to_vec 1 ++
  write_string_to_vec overworld ++
  [0] ++
  write_string_to_vec overworld ++
  write_string_to_vec overworld ++
  [0, 0, 0, 0, 0, 0, 0, 0] ++
  write_varint_to_vec 10 ++
  write_varint_to_vec 10 ++
  write_varint_to_vec 10 ++
  [0, 1, 0, 0]

/-- `send_join_game` (main.rs lines 310-377): the payload behind its
VarInt length prefix. -/
def send_join_game (p : Player) : List Nat :=
  write_varint_to_vec (as_i32 (join_game_payload p).length) ++ join_game_payload p

/-- Observable result of the pre-play part of `handle_client` (main.rs
lines 97-150): the roster afterwards, the packets written to the
socket in order, and (when login completed) the created player plus
the remaining inbound stream for the play loop. -/
structure SetupResult where
  roster : List Player
  sent : List (List Nat)
  play : Option (Player × List Nat)
  deriving DecidableEq, Repr

/-- Lines 97-150 of `handle_client`: handshake, short-circuit to
status on `next_state == 1` (`handle_status` writes nothing), login,
roster insertion, then the login-success and join packets.  Any
handshake or login error returns with the roster untouched and nothing
sent.  `u` stands for the freshly generated `Uuid::new_v4()`. -/
def handle_client_setup (stream : List Nat) (players : List Player) (u : Nat) :
    SetupResult :=
  match handle_handshake stream with
  | .error _ => ⟨players, [], none⟩
  | .ok (next_state, rest) =>
    if next_state = 1 then ⟨players, [], none⟩
    else
      match handle_login rest with
      | .error _ => ⟨players, [], none⟩
      | .ok (uname, rest2) =>
        let p := mkPlayer u uname
        ⟨roster_insert players p, [send_login_success p, send_join_game p],
          some (p, rest2)⟩

/-- Final observable outcome of one connection thread. -/
inductive ClientOut where
  | done : List Player → List (List Nat) → ClientOut
  | panicked : List (List Nat) → ClientOut
  | fuelOut : ClientOut
  deriving DecidableEq, Repr

/-- `handle_client` (main.rs lines 97-178): setup followed by the play
loop. -/
def handle_client (stream : List Nat) (players : List Player) (u : Nat) : ClientOut :=
  let s := handle_client_setup stream players u
  match s.play with
  | none => .done s.roster s.sent
  | some (p, rest) =>
    match play_loop s.roster p rest with
    | .ret ps => .done ps s.sent
    | .panicked => .panicked s.sent
    | .fuelOut => .fuelOut

/-- Concrete inputs used by witnesses and counterexamples: the
handshake frame of the spec happy-path scenario
(`protocol 767, address localhost, port 25565, next_state 2`). -/
def c6_handshake_frame : List Nat :=
  [16, 0, 255, 5, 9, 108, 111, 99, 97, 108, 104, 111, 115, 116, 99, 221, 2]

/-- The login-start frame with username `sd` (`[115, 100]`). -/
def c6_login_frame : List Nat := [4, 0, 2, 115, 100]

/-- The whole inbound byte stream of the happy-path scenario. -/
def c6_stream : List Nat := c6_handshake_frame ++ c6_login_frame

/-- A roster entry used by the play-loop counterexample: identity 1,
username `x`. -/
def c3_e1 : Player := { mkPlayer 1 [120] with position := (0, 0, 0) }

/-- The player of the counterexample connection: identity 1 as well,
username `b`. -/
def c3_e2 : Player := mkPlayer 1 [98]

/-- A Play-state stream: first a framed packet whose packet-id VarInt
is malformed (six continuation bytes), then a well-formed position
packet moving the player to bit patterns `(0, 0, 1)`. -/
def c3_stream : List Nat :=
  [6, 255, 255, 255, 255, 255, 255] ++ ([25, 18] ++ List.replicate 23 0 ++ [1])

/-- The player of the undersized-position-packet scenario. -/
def c2_player : Player := mkPlayer 1 [97]

/-- A framed Play packet of 24 bytes total: packet id `0x12` followed
by only 23 payload bytes (one byte short of the three `f64` values). -/
def c2_buffer_short : List Nat := 18 :: List.replicate 23 0

/-- The same packet with a full 24-byte payload. -/
def c2_buffer_full : List Nat := 18 :: List.replicate 24 0

/-! ## Auxiliary lemmas -/

/-- The VarInt loop consumes at least one byte on success. -/
theorem read_varint_loop_shrinks :
    ∀ (s : List Nat) (n r p : Nat) (rest : List Nat),
      read_varint_loop s n r = .ok (p, rest) → rest.length < s.length := by
  intro s
  induction s with
  | nil => intro n r p rest h; simp [read_varint_loop] at h
  | cons b tl ih =>
    intro n r p rest h
    simp only [read_varint_loop] at h
    split at h
    · exact absurd h (by simp)
    · split at h
      · simp only [Except.ok.injEq, Prod.mk.injEq] at h
        simp only [List.length_cons, ← h.2]
        omega
      · have := ih _ _ _ _ h
        simp only [List.length_cons]
        omega

/-- `read_varint_from_cursor` consumes at least one byte on success. -/
theorem read_varint_from_cursor_shrinks (s : List Nat) (v : Int) (rest : List Nat)
    (h : read_varint_from_cursor s = .ok (v, rest)) : rest.length < s.length := by
  unfold read_varint_from_cursor at h
  cases hm : read_varint_loop s 0 0 with
  | error e => rw [hm] at h; exact absurd h (by simp)
  | ok pr =>
    obtain ⟨p, r⟩ := pr
    rw [hm] at h
    simp only [Except.ok.injEq, Prod.mk.injEq] at h
    rw [← h.2]
    exact read_varint_loop_shrinks s 0 0 p r hm

/-- Because every play-loop iteration consumes at least one stream
byte, `stream.length + 1` units of fuel can never run out. -/
theorem play_loop_go_no_fuelOut (player : Player) :
    ∀ (fuel : Nat) (players : List Player) (stream : List Nat),
      stream.length < fuel → play_loop_go player fuel players stream ≠ .fuelOut := by
  intro fuel
  induction fuel with
  | zero => intro players stream h; omega
  | succ k ih =>
    intro players stream h
    simp only [play_loop_go]
    cases hm : read_varint_from_cursor stream with
    | error e => simp
    | ok pr =>
      obtain ⟨len, rest⟩ := pr
      have hr : rest.length < stream.length := read_varint_from_cursor_shrinks _ _ _ hm
      simp only
      split
      · cases hp : handle_packet players player (rest.take (i32_as_usize len)) with
        | none => simp
        | some players2 =>
          simp only
          apply ih
          simp only [List.length_drop]
          omega
      · simp

/-- The play loop never runs out of fuel. -/
theorem play_loop_no_fuelOut (players : List Player) (player : Player)
    (stream : List Nat) : play_loop players player stream ≠ .fuelOut :=
  play_loop_go_no_fuelOut player (stream.length + 1) players stream (by omega)

/-- One-step unfolding of the encoder loop. -/
theorem write_varint_to_vec_fuel_succ (fuel : Nat) (value : Int) :
    write_varint_to_vec_fuel (fuel + 1) value =
      if value / 128 = 0 then some [(value % 128).toNat]
      else
        match write_varint_to_vec_fuel fuel (value / 128) with
        | none => none
        | some rest => some (((value % 128).toNat ||| 128) :: rest) := rfl

/-- For a nonnegative value below `128 ^ (n + 1)`, `n + 1` iterations
of the encoder loop terminate, emitting at most `n + 1` bytes. -/
theorem write_varint_fuel_sufficient :
    ∀ (n : Nat) (v : Int), 0 ≤ v → v < 128 ^ (n + 1) →
      ∃ l, write_varint_to_vec_fuel (n + 1) v = some l ∧ l.length ≤ n + 1 := by
  intro n
  induction n with
  | zero =>
    intro v h0 h1
    have h1b : v < 128 := by simpa using h1
    have hz : v / 128 = 0 := by omega
    exact ⟨[(v % 128).toNat],
      by rw [write_varint_to_vec_fuel_succ, if_pos hz], by simp⟩
  | succ k ih =>
    intro v h0 h1
    by_cases hz : v / 128 = 0
    · exact ⟨[(v % 128).toNat],
        by rw [write_varint_to_vec_fuel_succ, if_pos hz], by simp⟩
    · have h2 : 0 ≤ v / 128 := Int.ediv_nonneg h0 (by norm_num)
      have h3 : v / 128 < 128 ^ (k + 1) := by
        rw [Int.ediv_lt_iff_lt_mul (by norm_num : (0:Int) < 128)]
        calc v < 128 ^ (k + 1 + 1) := h1
          _ = 128 ^ (k + 1) * 128 := by ring
      obtain ⟨l, hl, hlen⟩ := ih (v / 128) h2 h3
      refine ⟨((v % 128).toNat ||| 128) :: l, ?_, by simp; omega⟩
      rw [write_varint_to_vec_fuel_succ, if_neg hz, hl]

/-- For a negative value the encoder loop never stops: the arithmetic
shift keeps the value negative, so the zero test never succeeds. -/
theorem write_varint_fuel_neg :
    ∀ (fuel : Nat) (v : Int), v < 0 → write_varint_to_vec_fuel fuel v = none := by
  intro fuel
  induction fuel with
  | zero => intro v _; rfl
  | succ k ih =>
    intro v hv
    have h1 : v / 128 < 0 := by omega
    have h2 : ¬ (v / 128 = 0) := by omega
    rw [write_varint_to_vec_fuel_succ, if_neg h2, ih (v / 128) h1]

/-- `updateFirstPos` keeps the roster size. -/
theorem updateFirstPos_length (l : List Player) (u : Nat) (xyz : Nat × Nat × Nat) :
    (updateFirstPos l u xyz).length = l.length := by
  induction l with
  | nil => rfl
  | cons q qs ih =>
    simp only [updateFirstPos]
    split <;> simp [ih]

/-- `updateFirstPos` never changes any field other than `position`. -/
theorem updateFirstPos_preserves (l : List Player) (u : Nat) (xyz : Nat × Nat × Nat) :
    ∀ i : Nat,
      ((updateFirstPos l u xyz)[i]?).map Player.uuid = (l[i]?).map Player.uuid ∧
      ((updateFirstPos l u xyz)[i]?).map Player.username = (l[i]?).map Player.username ∧
      ((updateFirstPos l u xyz)[i]?).map Player.health = (l[i]?).map Player.health ∧
      ((updateFirstPos l u xyz)[i]?).map Player.game_mode = (l[i]?).map Player.game_mode ∧
      ((updateFirstPos l u xyz)[i]?).map Player.is_operator =
        (l[i]?).map Player.is_operator := by
  induction l with
  | nil => intro i; simp [updateFirstPos]
  | cons q qs ih =>
    intro i
    by_cases hq : q.uuid = u
    · simp only [updateFirstPos, if_pos hq]
      cases i with
      | zero => simp
      | succ j => simp
    · simp only [updateFirstPos, if_neg hq]
      cases i with
      | zero => simp
      | succ j => simpa using ih j

/-- A roster entry whose identity is not the searched one is returned
unchanged by `updateFirstPos`. -/
theorem updateFirstPos_of_ne (l : List Player) (u : Nat) (xyz : Nat × Nat × Nat) :
    ∀ (i : Nat) (q : Player), l[i]? = some q → q.uuid ≠ u →
      (updateFirstPos l u xyz)[i]? = some q := by
  induction l with
  | nil => intro i q h; simp at h
  | cons p0 ps ih =>
    intro i q h hne
    by_cases hq : p0.uuid = u
    · simp only [updateFirstPos, if_pos hq]
      cases i with
      | zero =>
        have hpq : p0 = q := by simpa using h
        subst hpq
        exact absurd hq hne
      | succ j => simpa using h
    · simp only [updateFirstPos, if_neg hq]
      cases i with
      | zero => simpa using h
      | succ j =>
        simp only [List.getElem?_cons_succ] at h ⊢
        exact ih j q h hne

/-- `hexDigits` always renders exactly `k` nibbles. -/
theorem hexDigits_length : ∀ (k v : Nat), (hexDigits v k).length = k := by
  intro k
  induction k with
  | zero => intro v; rfl
  | succ n ih => intro v; simp [hexDigits, ih]

/-- The textual identity is always 36 bytes long. -/
theorem uuid_to_string_length (u : Nat) : (uuid_to_string u).length = 36 := by
  simp [uuid_to_string, List.length_take, List.length_drop, hexDigits_length]

/-- If every byte processed while `num_read` is still below 5 carries
the continuation bit, the VarInt loop can only end in an error (either
`varIntTooBig` at the sixth byte or `eof` at the end of input). -/
theorem read_varint_loop_all_cont_err :
    ∀ (bs : List Nat) (n r : Nat),
      (∀ (i : Nat) (hl : i < bs.length), i + n < 5 → bs.get ⟨i, hl⟩ &&& 128 ≠ 0) →
      ∃ e, read_varint_loop bs n r = .error e := by
  intro bs
  induction bs with
  | nil => intro n r _; exact ⟨.eof, rfl⟩
  | cons b tl ih =>
    intro n r h
    by_cases h5 : 5 < n + 1
    · exact ⟨.varIntTooBig, by simp only [read_varint_loop, if_pos h5]⟩
    · have hb : b &&& 128 ≠ 0 := h 0 (by simp) (by omega)
      obtain ⟨e, he⟩ := ih (n + 1) (r ||| (((b &&& 127) <<< (7 * n % 32)) % 2 ^ 32))
        (fun i hl hi => h (i + 1) (by simpa using hl) (by omega))
      exact ⟨e, by simp only [read_varint_loop, if_neg h5, if_neg hb, he]⟩

/-! ## Claims -/

/-- Claim C1 (refuted; code bug): `decode(encode(v)) == v` cannot hold
for negative `v`, because `write_varint_to_vec` never terminates
there: `value >>= 7` on `i32` is an arithmetic shift, so a negative
value stays negative and nonzero forever.  No amount of fuel makes the
encoder loop finish on input `-1`. -/
theorem c1_encoder_diverges_on_negative :
    ∀ fuel : Nat, write_varint_to_vec_fuel fuel (-1) = none :=
  fun fuel => write_varint_fuel_neg fuel (-1) (by norm_num)

/-- Claim C4 (confirmed): when no terminating byte (high bit clear)
appears among the first five bytes, VarInt decoding fails with an
error; in particular a six-byte all-continuation sequence fails with
the `VarInt too big` error. -/
theorem c4_varint_overflow_error (bs : List Nat)
    (h : ∀ (i : Nat), i < 5 → ∀ hl : i < bs.length, bs.get ⟨i, hl⟩ &&& 128 ≠ 0) :
    (∃ e, read_varint_from_cursor bs = .error e) ∧
    read_varint_from_cursor [255, 255, 255, 255, 255, 255] = .error .varIntTooBig := by
  refine ⟨?_, rfl⟩
  obtain ⟨e, he⟩ := read_varint_loop_all_cont_err bs 0 0
    (fun i hl hi => h i (by omega) hl)
  exact ⟨e, by simp only [read_varint_from_cursor, he]⟩

/-- Witness for C4 at the concrete five-byte all-continuation input. -/
theorem c4_varint_overflow_error_witness :
    (∃ e, read_varint_from_cursor (List.replicate 5 255) = .error e) ∧
    read_varint_from_cursor [255, 255, 255, 255, 255, 255] = .error .varIntTooBig :=
  c4_varint_overflow_error (List.replicate 5 255)
    (fun i _h5 hl => by
      simp only [List.get_eq_getElem, List.getElem_replicate]
      decide)

/-- Claim C10 (confirmed): for every nonnegative 32-bit input, five
iterations of the buffer-building VarInt encoder loop terminate and
produce at most five bytes, and input 0 produces exactly the single
byte `0x00`. -/
theorem c10_encoder_terminates_within_five (v : Int) (h0 : 0 ≤ v) (h1 : v < 2 ^ 31) :
    (∃ l, write_varint_to_vec_fuel 5 v = some l ∧ l.length ≤ 5) ∧
    write_varint_to_vec_fuel 5 0 = some [0] := by
  refine ⟨?_, rfl⟩
  have h2 : v < 128 ^ (4 + 1) := by
    have h3 : (2:Int) ^ 31 ≤ 128 ^ (4 + 1) := by norm_num
    omega
  exact write_varint_fuel_sufficient 4 v h0 h2

/-- Witness for C10 at the concrete input 300. -/
theorem c10_encoder_terminates_within_five_witness :
    (∃ l, write_varint_to_vec_fuel 5 300 = some l ∧ l.length ≤ 5) ∧
    write_varint_to_vec_fuel 5 0 = some [0] :=
  c10_encoder_terminates_within_five 300 (by norm_num) (by norm_num)

/-- Claim C2 (refuted; code bug): the guard of
`handle_player_position` measures the WHOLE framed buffer, including
the packet-id byte.  A Play position packet of 24 bytes total (id
`0x12` plus only 23 payload bytes) passes the `>= 24` guard, the third
`read_f64` fails, and the `unwrap` panics, instead of the silent
ignore the claim describes.  One more payload byte gives the claimed
in-place update. -/
theorem c2_undersized_position_packet_panics :
    handle_packet [c2_player] c2_player c2_buffer_short = none ∧
    handle_packet [c2_player] c2_player c2_buffer_full =
      some [{ c2_player with position := (0, 0, 0) }] := by
  exact ⟨by decide, by decide⟩

/-- Claim C3 counterexample: a malformed packet-id VarInt inside a
framed Play-state packet is NOT fatal.  `handle_packet` returns with
the roster untouched, and the play loop keeps going: fed the malformed
frame followed by a position packet, it still applies the later
position update (the entry with identity 1 ends at bit patterns
`(0, 0, 1)`), which would be impossible had the connection been torn
down at the format error. -/
theorem c3_format_error_not_fatal_counterexample :
    handle_packet [c3_e1, c3_e2] c3_e2 (List.replicate 6 255) = some [c3_e1, c3_e2] ∧
    play_loop [c3_e1, c3_e2] c3_e2 c3_stream = .ret [{ c3_e1 with position := (0, 0, 1) }] := by
  exact ⟨by decide, by decide⟩

/-- Claim C3 (corrected): format errors that occur while reading
DIRECTLY from the socket are fatal to that connection only — a
malformed length-prefix VarInt in the play loop removes the player and
ends the loop, and a handshake decode error ends the connection before
any player exists — but a malformed packet-id VarInt inside an
already-framed Play-state packet is merely ignored: `handle_packet`
returns the roster unchanged and the loop continues. -/
theorem c3_amended_error_fatality (players : List Player) (p : Player) (u : Nat)
    (stream frame hs : List Nat) (e1 e2 e3 : PErr)
    (ha : read_varint_from_cursor stream = .error e1)
    (hb : read_varint_from_cursor frame = .error e2)
    (hc : handle_handshake hs = .error e3) :
    play_loop players p stream =
      .ret (players.filter (fun q => q.username != p.username)) ∧
    handle_packet players p frame = some players ∧
    handle_client hs players u = .done players [] := by
  refine ⟨?_, ?_, ?_⟩
  · simp only [play_loop, play_loop_go, ha]
  · simp only [handle_packet, hb]
  · simp [handle_client, handle_client_setup, hc]

/-- Witness for the amended C3 at concrete inputs. -/
theorem c3_amended_error_fatality_witness :
    play_loop [] (mkPlayer 3 [99]) (List.replicate 6 255) =
      .ret (List.filter (fun q => q.username != (mkPlayer 3 [99]).username) []) ∧
    handle_packet [] (mkPlayer 3 [99]) (List.replicate 6 255) = some [] ∧
    handle_client [0] [] 7 = .done [] [] :=
  c3_amended_error_fatality [] (mkPlayer 3 [99]) 7 (List.replicate 6 255)
    (List.replicate 6 255) [0] .varIntTooBig .varIntTooBig .eof rfl rfl rfl

/-- Claim C5 counterexample: with a starting roster already holding a
player with the same username (identity 1, name `a`), inserting a new
player (identity 2, same name `a`) and then removing by that username
empties the roster — the size is NOT restored. -/
theorem c5_roster_counterexample :
    (roster_remove_by_username (roster_insert [mkPlayer 1 [97]] (mkPlayer 2 [97]))
        (mkPlayer 2 [97]).username).length ≠
      ([mkPlayer 1 [97]] : List Player).length := by
  decide

/-- Claim C5 (corrected): when no entry of the starting roster carries
the username of `p` and none carries its identity, inserting `p` and
then removing by its username restores the roster exactly (hence the
same size), and a lookup by the identity of `p` finds no match. -/
theorem c5_amended_roster_restore (roster : List Player) (p : Player)
    (h1 : ∀ q ∈ roster, q.username ≠ p.username)
    (h2 : ∀ q ∈ roster, q.uuid ≠ p.uuid) :
    roster_remove_by_username (roster_insert roster p) p.username = roster ∧
    (roster_remove_by_username (roster_insert roster p) p.username).length =
      roster.length ∧
    roster_find_by_uuid (roster_remove_by_username (roster_insert roster p) p.username)
      p.uuid = none := by
  have hmain : roster_remove_by_username (roster_insert roster p) p.username = roster := by
    unfold roster_remove_by_username roster_insert
    rw [List.filter_append]
    have hr : roster.filter (fun q => q.username != p.username) = roster :=
      List.filter_eq_self.mpr (fun q hq => by simpa using h1 q hq)
    have hp : List.filter (fun q => q.username != p.username) [p] = [] := by simp
    rw [hr, hp, List.append_nil]
  refine ⟨hmain, by rw [hmain], ?_⟩
  rw [hmain]
  exact List.find?_eq_none.mpr (fun q hq => by simpa using h2 q hq)

/-- Witness for the amended C5 at concrete inputs. -/
theorem c5_amended_roster_restore_witness :
    roster_remove_by_username (roster_insert [mkPlayer 1 [97]] (mkPlayer 2 [98]))
      (mkPlayer 2 [98]).username = [mkPlayer 1 [97]] ∧
    (roster_remove_by_username (roster_insert [mkPlayer 1 [97]] (mkPlayer 2 [98]))
      (mkPlayer 2 [98]).username).length = ([mkPlayer 1 [97]] : List Player).length ∧
    roster_find_by_uuid
      (roster_remove_by_username (roster_insert [mkPlayer 1 [97]] (mkPlayer 2 [98]))
        (mkPlayer 2 [98]).username) (mkPlayer 2 [98]).uuid = none :=
  c5_amended_roster_restore [mkPlayer 1 [97]] (mkPlayer 2 [98])
    (by decide) (by decide)

/-- The join packet depends on its player argument only through the
game mode. -/
theorem send_join_game_only_game_mode (p q : Player) (h : p.game_mode = q.game_mode) :
    send_join_game p = send_join_game q := by
  unfold send_join_game join_game_payload
  rw [h]

set_option maxHeartbeats 1600000 in
/-- Claim C6 (confirmed): from an empty roster, the happy-path stream
(handshake with next_state 2, then Login Start with username `sd`)
makes the server insert exactly one player named `sd` at the spawn
position (bit patterns of `(0.0, 64.0, 0.0)`), and send first a
login-success packet (id `0x02`) whose last field is the string `sd`
and whose identity field is the 36-byte textual identity, then a join
packet (id `0x26`, length byte 85) containing the encoded string
`minecraft:overworld`. -/
theorem c6_happy_path (u : Nat) :
    handle_client_setup c6_stream [] u =
      { roster := [mkPlayer u [115, 100]],
        sent := [send_login_success (mkPlayer u [115, 100]),
                 send_join_game (mkPlayer u [115, 100])],
        play := some (mkPlayer u [115, 100], []) } ∧
    send_login_success (mkPlayer u [115, 100]) =
      [41, 2, 36] ++ uuid_to_string u ++ [2, 115, 100] ∧
    (∃ a b, send_join_game (mkPlayer u [115, 100]) =
      a ++ write_string_to_vec overworld ++ b) ∧
    (send_join_game (mkPlayer u [115, 100])).take 2 = [85, 38] ∧
    (mkPlayer u [115, 100]).position = (0, f64_pat_64, 0) ∧
    (mkPlayer u [115, 100]).username = [115, 100] := by
  have hjoin : send_join_game (mkPlayer u [115, 100]) =
      send_join_game (mkPlayer 0 [115, 100]) :=
    send_join_game_only_game_mode _ _ rfl
  refine ⟨rfl, ?_, ?_, ?_, rfl, rfl⟩
  · have hlen : (uuid_to_string u).length = 36 := uuid_to_string_length u
    have h36 : write_string_to_vec (uuid_to_string u) = 36 :: uuid_to_string u := by
      unfold write_string_to_vec
      rw [hlen, show write_varint_to_vec (as_i32 36) = [36] from by decide,
        List.singleton_append]
    have hpay : login_success_payload (mkPlayer u [115, 100]) =
        [2] ++ (36 :: uuid_to_string u) ++ [2, 115, 100] := by
      unfold login_success_payload
      rw [show (mkPlayer u [115, 100]).uuid = u from rfl,
        show (mkPlayer u [115, 100]).username = [115, 100] from rfl, h36,
        show write_varint_to_vec 2 = [2] from by decide,
        show write_string_to_vec [115, 100] = [2, 115, 100] from by decide]
    have hplen : (login_success_payload (mkPlayer u [115, 100])).length = 41 := by
      rw [hpay]
      simp [hlen]
    unfold send_login_success
    rw [hplen, hpay, show write_varint_to_vec (as_i32 41) = [41] from by decide]
    simp
  · refine ⟨(send_join_game (mkPlayer 0 [115, 100])).take 10,
      (send_join_game (mkPlayer 0 [115, 100])).drop 30, ?_⟩
    rw [hjoin]
    decide
  · rw [hjoin]
    decide

/-- Claim C7 (confirmed): a handshake carrying next_state 1 makes the
connection short-circuit to the status branch: no player is created,
nothing is sent, and the final outcome leaves the roster exactly as it
was. -/
theorem c7_status_short_circuit (stream : List Nat) (players : List Player) (u : Nat)
    (rest : List Nat) (h : handle_handshake stream = .ok (1, rest)) :
    handle_client_setup stream players u = ⟨players, [], none⟩ ∧
    handle_client stream players u = .done players [] := by
  have hs : handle_client_setup stream players u = ⟨players, [], none⟩ := by
    unfold handle_client_setup
    rw [h]
    simp
  exact ⟨hs, by simp [handle_client, hs]⟩

/-- Witness for C7 at a concrete status-path stream. -/
theorem c7_status_short_circuit_witness :
    handle_client_setup [6, 0, 1, 0, 0, 0, 1] [] 0 = ⟨[], [], none⟩ ∧
    handle_client [6, 0, 1, 0, 0, 0, 1] [] 0 = .done [] [] :=
  c7_status_short_circuit [6, 0, 1, 0, 0, 0, 1] [] 0 [] rfl

/-- Claim C8 (confirmed): a Play position+rotation packet (id `0x13`)
with at least 32 bytes after the packet id updates the position of the
first roster entry matching the player identity to the three decoded
big-endian 64-bit patterns; the yaw and pitch bytes are read but land
nowhere; sizes, every other field of every entry, and every entry with
a different identity are unchanged. -/
theorem c8_position_rotation_update (players : List Player) (player : Player)
    (full r1 : List Nat)
    (hid : read_varint_from_cursor full = .ok (0x13, r1))
    (hr : 32 ≤ r1.length) :
    handle_packet players player full =
      some (updateFirstPos players player.uuid
        (beval (r1.take 8), beval ((r1.drop 8).take 8),
         beval (((r1.drop 8).drop 8).take 8))) ∧
    (∀ xyz : Nat × Nat × Nat,
      (updateFirstPos players player.uuid xyz).length = players.length) ∧
    (∀ (xyz : Nat × Nat × Nat) (i : Nat),
      ((updateFirstPos players player.uuid xyz)[i]?).map Player.uuid =
        (players[i]?).map Player.uuid ∧
      ((updateFirstPos players player.uuid xyz)[i]?).map Player.username =
        (players[i]?).map Player.username ∧
      ((updateFirstPos players player.uuid xyz)[i]?).map Player.health =
        (players[i]?).map Player.health ∧
      ((updateFirstPos players player.uuid xyz)[i]?).map Player.game_mode =
        (players[i]?).map Player.game_mode ∧
      ((updateFirstPos players player.uuid xyz)[i]?).map Player.is_operator =
        (players[i]?).map Player.is_operator) ∧
    (∀ (xyz : Nat × Nat × Nat) (i : Nat) (q : Player),
      players[i]? = some q → q.uuid ≠ player.uuid →
      (updateFirstPos players player.uuid xyz)[i]? = some q) := by
  refine ⟨?_, fun xyz => updateFirstPos_length players player.uuid xyz,
    fun xyz i => updateFirstPos_preserves players player.uuid xyz i,
    fun xyz i q hq hne => updateFirstPos_of_ne players player.uuid xyz i q hq hne⟩
  have hfull : 32 ≤ full.length := by
    have := read_varint_from_cursor_shrinks full 0x13 r1 hid
    omega
  have h1 : read_be_bytes 8 r1 = some (beval (r1.take 8), r1.drop 8) := by
    unfold read_be_bytes
    rw [if_pos (by omega)]
  have h2 : read_be_bytes 8 (r1.drop 8) =
      some (beval ((r1.drop 8).take 8), (r1.drop 8).drop 8) := by
    unfold read_be_bytes
    rw [if_pos (by simp [List.length_drop]; omega)]
  have h3 : read_be_bytes 8 ((r1.drop 8).drop 8) =
      some (beval (((r1.drop 8).drop 8).take 8), ((r1.drop 8).drop 8).drop 8) := by
    unfold read_be_bytes
    rw [if_pos (by simp [List.length_drop]; omega)]
  have h4 : read_be_bytes 4 (((r1.drop 8).drop 8).drop 8) =
      some (beval ((((r1.drop 8).drop 8).drop 8).take 4),
        (((r1.drop 8).drop 8).drop 8).drop 4) := by
    unfold read_be_bytes
    rw [if_pos (by simp [List.length_drop]; omega)]
  have h5 : read_be_bytes 4 ((((r1.drop 8).drop 8).drop 8).drop 4) =
      some (beval (((((r1.drop 8).drop 8).drop 8).drop 4).take 4),
        ((((r1.drop 8).drop 8).drop 8).drop 4).drop 4) := by
    unfold read_be_bytes
    rw [if_pos (by simp [List.length_drop]; omega)]
  have hstep : handle_packet players player full =
      handle_player_position_and_rotation players player full r1 := by
    simp [handle_packet, hid]
  rw [hstep]
  simp only [handle_player_position_and_rotation, if_pos hfull, h1, h2, h3, h4, h5]

/-- Witness for C8 at a concrete roster and packet. -/
theorem c8_position_rotation_update_witness :
    handle_packet [mkPlayer 1 [97]] (mkPlayer 1 [97]) (19 :: List.replicate 32 7) =
      some (updateFirstPos [mkPlayer 1 [97]] (mkPlayer 1 [97]).uuid
        (beval ((List.replicate 32 7).take 8),
         beval (((List.replicate 32 7).drop 8).take 8),
         beval ((((List.replicate 32 7).drop 8).drop 8).take 8))) :=
  (c8_position_rotation_update [mkPlayer 1 [97]] (mkPlayer 1 [97])
    (19 :: List.replicate 32 7) (List.replicate 32 7) rfl (by decide)).1

/-- Claim C9 (confirmed): during Login exactly one framed packet is
read; if its packet id is not `0x00` the login fails with the
invalid-packet-id protocol error and the connection ends with the
roster unchanged and no packet sent; if the id is `0x00` and the
username string decodes, that single packet is accepted. -/
theorem c9_login_packet_id_policy (players : List Player) (u : Nat)
    (stream rest frame rest2 c1 : List Nat) (id : Int)
    (hh : handle_handshake stream = .ok (2, rest))
    (hf : read_frame rest = .ok (frame, rest2))
    (hid : read_varint_from_cursor frame = .ok (id, c1)) :
    (id ≠ 0 →
      handle_login rest = .error (.badLoginId id) ∧
      handle_client stream players u = .done players []) ∧
    (id = 0 → ∀ (uname c2 : List Nat),
      read_string_from_cursor c1 = .ok (uname, c2) →
      handle_login rest = .ok (uname, rest2)) := by
  constructor
  · intro hne
    have hl : handle_login rest = .error (.badLoginId id) := by
      simp only [handle_login, hf, hid, if_pos hne]
    refine ⟨hl, ?_⟩
    have hsetup : handle_client_setup stream players u = ⟨players, [], none⟩ := by
      simp only [handle_client_setup, hh]
      rw [if_neg (by norm_num)]
      simp only [hl]
    simp [handle_client, hsetup]
  · intro hz uname c2 hstr
    subst hz
    simp only [handle_login, hf, hid]
    rw [if_neg (by simp)]
    simp only [hstr]

/-- Witness for C9: the status-2 handshake followed by a framed login
packet with packet id 5. -/
theorem c9_login_packet_id_policy_witness :
    handle_login [2, 5, 0] = .error (.badLoginId 5) ∧
    handle_client ([6, 0, 1, 0, 0, 0, 2] ++ [2, 5, 0]) [] 0 = .done [] [] :=
  (c9_login_packet_id_policy [] 0 ([6, 0, 1, 0, 0, 0, 2] ++ [2, 5, 0]) [2, 5, 0]
    [5, 0] [] [0] 5 (by decide) (by decide) (by decide)).1 (by norm_num)

end RustServer
